import Mathlib

/-!
A shallow embedding of the Daml wallet reference model (modules `Asset` and
`Account`): the templates `Asset`, `AssetTransfer`, `AssetHoldingAccount` and
`AssetHoldingAccountProposal`, together with the choices `Cancel_Transfer`,
`Reject_Transfer`, `Accept_Transfer`, `Invite_New_Asset_Holder`, `Airdrop`
and `Create_Transfer`.

The ledger is a record of lists of active contracts.  A choice is a function
from a ledger state (plus the exercised contract and the choice arguments) to
either an error or the successor state; the underlying ledger's atomic-commit
discipline means a failed choice commits nothing.  Daml's `Decimal` is
embedded as `ℚ` (all operations used by the model are addition, subtraction
and comparison, which are exact on fixed-point decimals).  Parties are
strings.
-/

namespace Wallet

abbrev Party := String

abbrev Decimal := ℚ

/-- `data AssetType`: issuer, symbol, fungible flag and optional reference. -/
structure AssetType where
  issuer : Party
  symbol : String
  fungible : Bool
  reference : Option String
deriving DecidableEq, Repr

/-- `template Asset`: an asset holding with type, owner and amount. -/
structure Asset where
  asset_type : AssetType
  owner : Party
  amount : Decimal
deriving DecidableEq, Repr

/-- The contract key of an `Asset`: `(asset_type, owner)`. -/
def Asset.key (a : Asset) : AssetType × Party :=
  (a.asset_type, a.owner)

/-- The `ensure` clause of the `Asset` template:
`if asset_type.fungible then amount>0.0 else (amount==1.0 || amount==0.0)`. -/
def Asset.ensure (a : Asset) : Bool :=
  if a.asset_type.fungible then decide (0 < a.amount)
  else (decide (a.amount = 1) || decide (a.amount = 0))

/-- `template AssetTransfer`: an asset in transfer, carrying a value snapshot
of the sender's `Asset`, the recipient and the transferred amount. -/
structure AssetTransfer where
  asset : Asset
  recipient : Party
  amount : Decimal
deriving DecidableEq, Repr

/-- `template AssetHoldingAccount`. -/
structure AssetHoldingAccount where
  asset_type : AssetType
  owner : Party
  airdroppable : Bool
  resharable : Bool
deriving DecidableEq, Repr

/-- `template AssetHoldingAccountProposal`. -/
structure AssetHoldingAccountProposal where
  account : AssetHoldingAccount
  recipient : Party
deriving DecidableEq, Repr

/-- The errors the embedded choices can raise.  `EnsureFailed` is the
ledger's rejection of a `create` whose `ensure` clause evaluates to false;
the remaining constructors are the `assertMsg` failures of the choices. -/
inductive LedgerError where
  | EnsureFailed
  | AirdropNotAccepted
  | InvalidNonFungibleAmount
  | NonFungibleSlotOccupied
  | DuplicateNonFungibleHolding
  | InsufficientFunds
deriving DecidableEq, Repr

/-- The active-contract state of the ledger, split by template. -/
structure Ledger where
  assets : List Asset
  transfers : List AssetTransfer
  accounts : List AssetHoldingAccount
  proposals : List AssetHoldingAccountProposal
deriving DecidableEq, Repr

/-- Does asset `a` sit at contract key `k`? -/
def assetKeyMatch (k : AssetType × Party) (a : Asset) : Bool :=
  decide (a.key = k)

/-- `lookupByKey @Asset k`: the active `Asset` at key `k`, if any. -/
def Ledger.lookupAsset (st : Ledger) (k : AssetType × Party) : Option Asset :=
  st.assets.find? (assetKeyMatch k)

/-- Archive the active `Asset` at key `k` (no-op when none is active). -/
def Ledger.archiveAsset (st : Ledger) (k : AssetType × Party) : Ledger :=
  { st with assets := st.assets.eraseP (assetKeyMatch k) }

/-- Archive one active `AssetTransfer` contract (the consuming-choice
archive of the exercised transfer). -/
def Ledger.archiveTransfer (st : Ledger) (tr : AssetTransfer) : Ledger :=
  { st with transfers := st.transfers.erase tr }

/-- `create Asset`: the ledger checks the template's `ensure` clause and,
when it holds, adds the new contract to the active set. -/
def createAsset (st : Ledger) (a : Asset) : Except LedgerError Ledger :=
  if a.ensure then Except.ok { st with assets := st.assets ++ [a] }
  else Except.error LedgerError.EnsureFailed

/-- The state an atomic `submit` leaves behind: the successor state on
success, the unchanged input state on failure (nothing is committed). -/
def commitState (st : Ledger) : Except LedgerError Ledger → Ledger
  | Except.ok st1 => st1
  | Except.error _ => st

/-- Key uniqueness, the invariant the ledger substrate maintains: no two
active `Asset` contracts share a key. -/
def Ledger.KeyUnique (st : Ledger) : Prop :=
  st.assets.Pairwise (fun a b => a.key ≠ b.key)

/-- All active `Asset` contracts satisfy the template's `ensure` clause. -/
def Ledger.AssetsValid (st : Ledger) : Prop :=
  ∀ a ∈ st.assets, a.ensure = true

/-- `choice Cancel_Transfer` on an `AssetTransfer`: look up the original
owner's `Asset`, archive it if present, and recreate the position with the
transferred amount added back; the exercised transfer is archived. -/
def Cancel_Transfer (st : Ledger) (tr : AssetTransfer) :
    Except LedgerError Ledger :=
  match st.lookupAsset (tr.asset.asset_type, tr.asset.owner) with
  | some prev =>
      createAsset
        ((st.archiveAsset (tr.asset.asset_type, tr.asset.owner)).archiveTransfer tr)
        { tr.asset with amount := tr.amount + prev.amount }
  | none =>
      createAsset (st.archiveTransfer tr)
        { tr.asset with amount := tr.amount + 0 }

/-- `choice Reject_Transfer`: archive the exercised transfer and create a
fresh `AssetTransfer` identical to it except `recipient = asset.owner`.
Creating an `AssetTransfer` cannot fail (the template has no `ensure`
clause), so the choice is total; it returns the successor state together
with the created contract. -/
def Reject_Transfer (st : Ledger) (tr : AssetTransfer) :
    Ledger × AssetTransfer :=
  let rev : AssetTransfer := { tr with recipient := tr.asset.owner }
  ({ st.archiveTransfer tr with
      transfers := (st.archiveTransfer tr).transfers ++ [rev] }, rev)

/-- `choice Accept_Transfer`: look up the recipient's `Asset` at
`(asset.asset_type, recipient)`; if one exists it must be fungible
(otherwise the `assertMsg` raises `DuplicateNonFungibleHolding`) and is
archived; the transfer is archived and a new `Asset` owned by the recipient
is created with the transferred amount plus the previous amount. -/
def Accept_Transfer (st : Ledger) (tr : AssetTransfer) :
    Except LedgerError Ledger :=
  match st.lookupAsset (tr.asset.asset_type, tr.recipient) with
  | some prev =>
      if prev.asset_type.fungible then
        createAsset
          ((st.archiveAsset (tr.asset.asset_type, tr.recipient)).archiveTransfer tr)
          { tr.asset with amount := tr.amount + prev.amount, owner := tr.recipient }
      else Except.error LedgerError.DuplicateNonFungibleHolding
  | none =>
      createAsset (st.archiveTransfer tr)
        { tr.asset with amount := tr.amount + 0, owner := tr.recipient }

/-- The controller of `Invite_New_Asset_Holder`:
`if resharable then owner else asset_type.issuer`. -/
def inviteController (acc : AssetHoldingAccount) : Party :=
  if acc.resharable then acc.owner else acc.asset_type.issuer

/-- `nonconsuming choice Invite_New_Asset_Holder`: create an
`AssetHoldingAccountProposal` for the recipient.  The uniqueness check
against the recipient's existing account is commented out in the source, so
the choice unconditionally creates the proposal. -/
def Invite_New_Asset_Holder (st : Ledger) (acc : AssetHoldingAccount)
    (recipient : Party) : Ledger × AssetHoldingAccountProposal :=
  let prop : AssetHoldingAccountProposal :=
    { account := acc, recipient := recipient }
  ({ st with proposals := st.proposals ++ [prop] }, prop)

/-- `nonconsuming choice Airdrop`: after the three `assertMsg` checks
(airdroppable or self-mint; amount 1 for non-fungible; empty slot for
non-fungible), archive any existing `Asset` at the account's key and create
one with the airdropped amount added to the previous amount. -/
def Airdrop (st : Ledger) (acc : AssetHoldingAccount) (amount : Decimal) :
    Except LedgerError Ledger :=
  if !(acc.airdroppable || decide (acc.asset_type.issuer = acc.owner)) then
    Except.error LedgerError.AirdropNotAccepted
  else if !(acc.asset_type.fungible || decide (amount = 1)) then
    Except.error LedgerError.InvalidNonFungibleAmount
  else
    match st.lookupAsset (acc.asset_type, acc.owner) with
    | some prev =>
        if acc.asset_type.fungible then
          createAsset (st.archiveAsset (acc.asset_type, acc.owner))
            { asset_type := acc.asset_type, owner := acc.owner,
              amount := amount + prev.amount }
        else Except.error LedgerError.NonFungibleSlotOccupied
    | none =>
        createAsset st
          { asset_type := acc.asset_type, owner := acc.owner,
            amount := amount + 0 }

/-- `nonconsuming choice Create_Transfer`: require an active `Asset` at the
owner's key with at least the requested amount (`assertMsg`
`InsufficientFunds` otherwise), archive it, create the residual `Asset`
with `asset.amount - amount` — the create is attempted unconditionally,
zero residual included — and create the `AssetTransfer` carrying the
pre-archive asset snapshot. -/
def Create_Transfer (st : Ledger) (acc : AssetHoldingAccount)
    (amount : Decimal) (recipient : Party) : Except LedgerError Ledger :=
  match st.lookupAsset (acc.asset_type, acc.owner) with
  | none => Except.error LedgerError.InsufficientFunds
  | some asset =>
      if decide (amount ≤ asset.amount) then
        match createAsset (st.archiveAsset (acc.asset_type, acc.owner))
            { asset with amount := asset.amount - amount } with
        | Except.error e => Except.error e
        | Except.ok st1 =>
            Except.ok { st1 with transfers :=
              st1.transfers ++ [{ asset := asset, recipient := recipient,
                                  amount := amount }] }
      else Except.error LedgerError.InsufficientFunds

/-! Concrete fixtures mirroring the parties and tokens of the source's test
script: a fungible token issued by Alice and a non-fungible token issued by
Chris. -/

/-- Alice's fungible token `ALC`. -/
def alcTkn : AssetType :=
  { issuer := "Alice", symbol := "ALC", fungible := true, reference := none }

/-- Chris's non-fungible token `NFT`. -/
def nftTkn : AssetType :=
  { issuer := "Chris", symbol := "NFT", fungible := false,
    reference := some "http" }

/-- Alice's account for `ALC` (not airdroppable, resharable). -/
def aliceAcc : AssetHoldingAccount :=
  { asset_type := alcTkn, owner := "Alice", airdroppable := false,
    resharable := true }

/-- Dianne's account for `NFT`. -/
def dianneNftAcc : AssetHoldingAccount :=
  { asset_type := nftTkn, owner := "Dianne", airdroppable := true,
    resharable := true }

/-- A ledger whose only contract is Alice's `ALC` position of 15. -/
def stAlice15 : Ledger :=
  { assets := [{ asset_type := alcTkn, owner := "Alice", amount := 15 }],
    transfers := [], accounts := [], proposals := [] }

/-- A ledger whose only contract is Alice's `ALC` position of 5. -/
def stAlice5 : Ledger :=
  { assets := [{ asset_type := alcTkn, owner := "Alice", amount := 5 }],
    transfers := [], accounts := [], proposals := [] }

/-- A ledger whose only contract is Dianne's single `NFT`. -/
def stDianneNft : Ledger :=
  { assets := [{ asset_type := nftTkn, owner := "Dianne", amount := 1 }],
    transfers := [], accounts := [], proposals := [] }

/-- In-flight transfer of 3 `ALC` from Alice to Bob (snapshot amount 3). -/
def trAliceBob3 : AssetTransfer :=
  { asset := { asset_type := alcTkn, owner := "Alice", amount := 3 },
    recipient := "Bob", amount := 3 }

/-- The transfer created by a zero-amount `Create_Transfer` from Alice's
position of 15 to Bob. -/
def trZero : AssetTransfer :=
  { asset := { asset_type := alcTkn, owner := "Alice", amount := 15 },
    recipient := "Bob", amount := 0 }

/-- The ledger reached from `stAlice15` by Alice's zero-amount
`Create_Transfer` to Bob. -/
def stAfterZeroTransfer : Ledger :=
  { assets := [{ asset_type := alcTkn, owner := "Alice", amount := 15 - 0 }],
    transfers := [trZero], accounts := [], proposals := [] }

/-- Iterated rejection: the state/transfer pair after `n` successive
`Reject_Transfer` exercises starting from `(st, tr)`. -/
def rejectChain (st : Ledger) (tr : AssetTransfer) : Nat → Ledger × AssetTransfer
  | 0 => (st, tr)
  | n + 1 =>
      let p := rejectChain st tr n
      Reject_Transfer p.1 p.2

/-! ### Generic list lemmas about `find?`, `eraseP` and `Pairwise` -/

/-- Erasing by a predicate disjoint from the search predicate does not
change the result of `find?`. -/
theorem find?_eraseP_disjoint {α : Type} {p q : α → Bool}
    (h : ∀ x, p x = true → q x = false) :
    ∀ l : List α, (l.eraseP p).find? q = l.find? q := by
  intro l
  induction l with
  | nil => rfl
  | cons a l ih =>
      by_cases hp : p a = true
      · rw [List.eraseP_cons_of_pos hp, List.find?_cons_of_neg _ (by simp [h a hp])]
      · rw [List.eraseP_cons_of_neg (by simp [hp])]
        by_cases hq : q a = true
        · rw [List.find?_cons_of_pos _ hq, List.find?_cons_of_pos _ hq]
        · rw [List.find?_cons_of_neg _ (by simp [hq]),
            List.find?_cons_of_neg _ (by simp [hq]), ih]

/-- In a list where no two elements both satisfy `p`, every element that
survives `eraseP p` fails `p`. -/
theorem eraseP_no_two {α : Type} {p : α → Bool} :
    ∀ l : List α, l.Pairwise (fun a b => ¬(p a = true ∧ p b = true)) →
      ∀ x ∈ l.eraseP p, p x = false := by
  intro l
  induction l with
  | nil => intro _ x hx; simp at hx
  | cons a l ih =>
      intro hp x hx
      rw [List.pairwise_cons] at hp
      by_cases ha : p a = true
      · rw [List.eraseP_cons_of_pos ha] at hx
        have h2 := hp.1 x hx
        simp only [ha, true_and, not_true_eq_false] at h2
        simpa using h2
      · rw [List.eraseP_cons_of_neg (by simp [ha])] at hx
        rcases List.mem_cons.1 hx with rfl | hx2
        · simpa using ha
        · exact ih hp.2 x hx2

/-! ### Lemmas about keys, lookup, archive and create -/

theorem assetKeyMatch_eq_true {k : AssetType × Party} {a : Asset} :
    assetKeyMatch k a = true ↔ a.key = k := by
  simp [assetKeyMatch]

theorem assetKeyMatch_eq_false {k : AssetType × Party} {a : Asset} :
    assetKeyMatch k a = false ↔ a.key ≠ k := by
  simp [assetKeyMatch]

theorem keyUnique_not_both {st : Ledger} (hu : st.KeyUnique)
    (k : AssetType × Party) :
    st.assets.Pairwise
      (fun a b => ¬(assetKeyMatch k a = true ∧ assetKeyMatch k b = true)) := by
  refine hu.imp ?_
  intro a b hne hab
  obtain ⟨h1, h2⟩ := hab
  rw [assetKeyMatch_eq_true] at h1 h2
  exact hne (h1.trans h2.symm)

/-- After archiving the asset at key `k`, no active asset matches `k`. -/
theorem lookupAsset_archive_self {st : Ledger} (hu : st.KeyUnique)
    (k : AssetType × Party) : (st.archiveAsset k).lookupAsset k = none := by
  apply List.find?_eq_none.2
  intro x hx
  have h := eraseP_no_two st.assets (keyUnique_not_both hu k) x hx
  simp [h]

/-- Archiving the asset at one key leaves lookup at any other key alone. -/
theorem lookupAsset_archive_ne {st : Ledger} {k k2 : AssetType × Party}
    (hne : k ≠ k2) :
    (st.archiveAsset k).lookupAsset k2 = st.lookupAsset k2 := by
  apply find?_eraseP_disjoint
  intro x hx
  rw [assetKeyMatch_eq_true] at hx
  rw [assetKeyMatch_eq_false, hx]
  exact hne

theorem keyUnique_archive {st : Ledger} (hu : st.KeyUnique)
    (k : AssetType × Party) : (st.archiveAsset k).KeyUnique :=
  List.Pairwise.sublist (List.eraseP_sublist _) hu

/-- Archiving at `k` and creating a fresh asset whose key is `k` keeps the
active assets pairwise key-distinct. -/
theorem keyUnique_archive_append {st : Ledger} (hu : st.KeyUnique)
    {k : AssetType × Party} {a : Asset} (ha : a.key = k) :
    (st.assets.eraseP (assetKeyMatch k) ++ [a]).Pairwise
      (fun x y => x.key ≠ y.key) := by
  rw [List.pairwise_append]
  refine ⟨keyUnique_archive hu k, List.pairwise_singleton _ _, ?_⟩
  intro x hx b hb
  rw [List.mem_singleton] at hb
  subst hb
  have h := eraseP_no_two st.assets (keyUnique_not_both hu k) x hx
  rw [assetKeyMatch_eq_false] at h
  rw [ha]
  exact h

theorem createAsset_ok_iff {st st1 : Ledger} {a : Asset} :
    createAsset st a = Except.ok st1 ↔
      a.ensure = true ∧ st1 = { st with assets := st.assets ++ [a] } := by
  unfold createAsset
  by_cases h : a.ensure = true
  · simp only [h, if_true, Except.ok.injEq, true_and]
    exact eq_comm
  · simp [h]

theorem createAsset_fails {st : Ledger} {a : Asset} (h : a.ensure = false) :
    createAsset st a = Except.error LedgerError.EnsureFailed := by
  unfold createAsset
  simp [h]

theorem assetsValid_append {l : List Asset} {a : Asset}
    (hl : ∀ x ∈ l, x.ensure = true) (ha : a.ensure = true) :
    ∀ x ∈ l ++ [a], x.ensure = true := by
  intro x hx
  rcases List.mem_append.1 hx with h | h
  · exact hl x h
  · rw [List.mem_singleton] at h
    subst h
    exact ha

theorem assetsValid_eraseP {l : List Asset} (p : Asset → Bool)
    (hl : ∀ x ∈ l, x.ensure = true) :
    ∀ x ∈ l.eraseP p, x.ensure = true :=
  fun x hx => hl x ((List.eraseP_sublist l).mem hx)

/-- Any state produced by `createAsset` from a base state whose assets all
satisfy the `ensure` clause again has only valid assets. -/
theorem assetsValid_of_createAsset {st0 st1 : Ledger} {a : Asset}
    (h : createAsset st0 a = Except.ok st1)
    (hv : ∀ x ∈ st0.assets, x.ensure = true) : st1.AssetsValid := by
  rcases createAsset_ok_iff.1 h with ⟨ha, rfl⟩
  exact assetsValid_append hv ha

/-- `AssetsValid` only inspects the assets, so updating the transfers list
preserves it. -/
theorem assetsValid_set_transfers {st : Ledger} (h : st.AssetsValid)
    (t : List AssetTransfer) : ({ st with transfers := t } : Ledger).AssetsValid :=
  h

/-! ### The claims -/

/-- Claim C1: every Asset record ever created — by a direct create, by
`Airdrop`, by `Create_Transfer`'s residual create, by `Cancel_Transfer` or
by `Accept_Transfer` — satisfies the fungibility invariant (`ensure`
clause): a fungible amount is positive, a non-fungible amount is 0 or 1;
and any attempted create violating it fails. -/
theorem fungibility_invariant (st : Ledger) (h : st.AssetsValid) :
    (∀ a st1, createAsset st a = Except.ok st1 → st1.AssetsValid) ∧
    (∀ a, a.ensure = false →
      createAsset st a = Except.error LedgerError.EnsureFailed) ∧
    (∀ acc amt st1, Airdrop st acc amt = Except.ok st1 → st1.AssetsValid) ∧
    (∀ acc amt r st1,
      Create_Transfer st acc amt r = Except.ok st1 → st1.AssetsValid) ∧
    (∀ tr st1, Cancel_Transfer st tr = Except.ok st1 → st1.AssetsValid) ∧
    (∀ tr st1, Accept_Transfer st tr = Except.ok st1 → st1.AssetsValid) := by
  have hv : ∀ x ∈ st.assets, x.ensure = true := h
  refine ⟨?_, ?_, ?_, ?_, ?_, ?_⟩
  · intro a st1 hok
    exact assetsValid_of_createAsset hok hv
  · intro a ha
    exact createAsset_fails ha
  · intro acc amt st1 hok
    unfold Airdrop at hok
    split at hok
    · simp at hok
    · split at hok
      · simp at hok
      · split at hok
        · split at hok
          · exact assetsValid_of_createAsset hok (assetsValid_eraseP _ hv)
          · simp at hok
        · exact assetsValid_of_createAsset hok hv
  · intro acc amt r st1 hok
    unfold Create_Transfer at hok
    split at hok
    · simp at hok
    · split at hok
      · split at hok
        · simp at hok
        · rename_i st2 heq
          rw [Except.ok.injEq] at hok
          subst hok
          exact assetsValid_set_transfers
            (assetsValid_of_createAsset heq (assetsValid_eraseP _ hv)) _
      · simp at hok
  · intro tr st1 hok
    unfold Cancel_Transfer at hok
    split at hok
    · exact assetsValid_of_createAsset hok (assetsValid_eraseP _ hv)
    · exact assetsValid_of_createAsset hok hv
  · intro tr st1 hok
    unfold Accept_Transfer at hok
    split at hok
    · split at hok
      · exact assetsValid_of_createAsset hok (assetsValid_eraseP _ hv)
      · simp at hok
    · exact assetsValid_of_createAsset hok hv

/-- Concrete check of C1: on a valid ledger, an attempted create of a
zero-amount fungible Asset fails the `ensure` clause. -/
theorem fungibility_invariant_check :
    createAsset stAlice15 { asset_type := alcTkn, owner := "Bob", amount := 0 }
      = Except.error LedgerError.EnsureFailed :=
  (fungibility_invariant stAlice15
      (by exact (by decide : ∀ a ∈ stAlice15.assets, a.ensure = true))).2.1
    { asset_type := alcTkn, owner := "Bob", amount := 0 } (by decide)

/-- Claim C4 is false as stated: starting from a transfer from Alice
(owner of the asset snapshot) to Bob, the first `Reject_Transfer` makes the
recipient Alice, but a second `Reject_Transfer` makes the recipient Alice
again — the recipient does not alternate back to Bob. -/
theorem reject_transfer_no_alternation :
    (rejectChain
      { assets := [], transfers := [trAliceBob3], accounts := [],
        proposals := [] } trAliceBob3 2).2.recipient = "Alice" ∧
    "Alice" ≠ "Bob" := by
  decide

/-- Claim C4 (amended): each `Reject_Transfer` archives the current
transfer and creates a new `AssetTransfer` with the same asset snapshot and
the same amount and with `recipient = asset.owner`; hence from the first
rejection on the recipient is constantly the original owner (it does not
alternate), and the amount never drifts. -/
theorem reject_transfer_recipient_fixed (st : Ledger) (tr : AssetTransfer) :
    ∀ n, 1 ≤ n → (rejectChain st tr n).2 =
      { asset := tr.asset, recipient := tr.asset.owner, amount := tr.amount } := by
  intro n
  induction n with
  | zero => intro hcon; exact absurd hcon (by decide)
  | succ m ih =>
      intro _
      show (Reject_Transfer (rejectChain st tr m).1 (rejectChain st tr m).2).2 = _
      rcases Nat.eq_zero_or_pos m with rfl | hm
      · rfl
      · rw [ih hm]
        rfl

/-- Concrete check of the amended C4 at three successive rejections. -/
theorem reject_transfer_recipient_fixed_check :
    (rejectChain stAlice15 trAliceBob3 3).2 =
      { asset := trAliceBob3.asset, recipient := trAliceBob3.asset.owner,
        amount := trAliceBob3.amount } :=
  reject_transfer_recipient_fixed stAlice15 trAliceBob3 3 (by decide)

/-- Claim C5: `Reject_Transfer` creates no Asset record at all (and touches
no account or proposal); its only effects are archiving the rejected
transfer and creating the single reversed `AssetTransfer`. -/
theorem reject_transfer_creates_no_asset (st : Ledger) (tr : AssetTransfer) :
    (Reject_Transfer st tr).1.assets = st.assets ∧
    (Reject_Transfer st tr).1.accounts = st.accounts ∧
    (Reject_Transfer st tr).1.proposals = st.proposals ∧
    (Reject_Transfer st tr).1.transfers =
      st.transfers.erase tr ++ [{ tr with recipient := tr.asset.owner }] :=
  ⟨rfl, rfl, rfl, rfl⟩

/-- Claim C9: `Invite_New_Asset_Holder` succeeds even when the recipient
already holds an active `AssetHoldingAccount` for the same asset type: the
proposal is created unconditionally and nothing else changes (the
uniqueness check is absent). -/
theorem invite_new_asset_holder_unchecked (st : Ledger)
    (acc : AssetHoldingAccount) (recipient : Party)
    (h : ∃ a ∈ st.accounts, a.asset_type = acc.asset_type ∧ a.owner = recipient) :
    Invite_New_Asset_Holder st acc recipient =
      ({ st with proposals :=
          st.proposals ++ [{ account := acc, recipient := recipient }] },
       { account := acc, recipient := recipient }) :=
  rfl

/-- Concrete check of C9: Alice invites Bob although Bob already has an
`ALC` account. -/
theorem invite_new_asset_holder_unchecked_check :
    Invite_New_Asset_Holder
      { assets := [], transfers := [],
        accounts := [{ asset_type := alcTkn, owner := "Bob",
                       airdroppable := false, resharable := true }],
        proposals := [] } aliceAcc "Bob" =
      ({ assets := [], transfers := [],
         accounts := [{ asset_type := alcTkn, owner := "Bob",
                        airdroppable := false, resharable := true }],
         proposals := [{ account := aliceAcc, recipient := "Bob" }] },
       { account := aliceAcc, recipient := "Bob" }) :=
  invite_new_asset_holder_unchecked _ aliceAcc "Bob"
    ⟨{ asset_type := alcTkn, owner := "Bob", airdroppable := false,
       resharable := true }, by decide, by decide, by decide⟩

/-- Claim C6: `Accept_Transfer` fails with `DuplicateNonFungibleHolding`
exactly when an active Asset already sits at `(asset_type, recipient)` and
is not fungible; and when it succeeds with an existing fungible Asset
there, that Asset is archived and replaced by one owned by the recipient
with the transferred amount added, and the transfer is archived. -/
theorem accept_transfer_duplicate_nonfungible (st : Ledger)
    (tr : AssetTransfer) :
    (Accept_Transfer st tr
        = Except.error LedgerError.DuplicateNonFungibleHolding ↔
      ∃ a, st.lookupAsset (tr.asset.asset_type, tr.recipient) = some a ∧
        a.asset_type.fungible = false) ∧
    (∀ a st1, st.lookupAsset (tr.asset.asset_type, tr.recipient) = some a →
      a.asset_type.fungible = true →
      Accept_Transfer st tr = Except.ok st1 →
      st1 = { st with
        assets :=
          st.assets.eraseP (assetKeyMatch (tr.asset.asset_type, tr.recipient))
            ++ [{ tr.asset with owner := tr.recipient, amount := tr.amount + a.amount }],
        transfers := st.transfers.erase tr }) := by
  constructor
  · constructor
    · intro herr
      unfold Accept_Transfer at herr
      split at herr
      · rename_i a heq
        split at herr
        · exfalso
          unfold createAsset at herr
          split at herr <;> simp at herr
        · rename_i hf
          exact ⟨a, heq, by simpa using hf⟩
      · exfalso
        unfold createAsset at herr
        split at herr <;> simp at herr
    · rintro ⟨a, heq, hf⟩
      unfold Accept_Transfer
      rw [heq]
      simp [hf]
  · intro a st1 heq hf hok
    unfold Accept_Transfer at hok
    rw [heq] at hok
    simp only [hf, if_true] at hok
    rcases createAsset_ok_iff.1 hok with ⟨_, rfl⟩
    rfl

/-- Concrete check of C6, the source's scenario 4: Dianne already holds the
non-fungible token, so accepting a second unit fails with
`DuplicateNonFungibleHolding`. -/
theorem accept_transfer_duplicate_nonfungible_check :
    Accept_Transfer stDianneNft
      { asset := { asset_type := nftTkn, owner := "Chris", amount := 1 },
        recipient := "Dianne", amount := 1 }
      = Except.error LedgerError.DuplicateNonFungibleHolding :=
  (accept_transfer_duplicate_nonfungible stDianneNft
    { asset := { asset_type := nftTkn, owner := "Chris", amount := 1 },
      recipient := "Dianne", amount := 1 }).1.2
    ⟨{ asset_type := nftTkn, owner := "Dianne", amount := 1 },
      by decide, by decide⟩

/-- Claim C7: `Airdrop` fails with `AirdropNotAccepted` exactly when the
account is not airdroppable and the issuer is not the owner (issuer
self-mint always passes the check), and on that failure nothing is
committed. -/
theorem airdrop_not_accepted_iff (st : Ledger) (acc : AssetHoldingAccount)
    (amt : Decimal) :
    (Airdrop st acc amt = Except.error LedgerError.AirdropNotAccepted ↔
      (acc.airdroppable = false ∧ acc.asset_type.issuer ≠ acc.owner)) ∧
    (Airdrop st acc amt = Except.error LedgerError.AirdropNotAccepted →
      commitState st (Airdrop st acc amt) = st) := by
  constructor
  · constructor
    · intro herr
      unfold Airdrop at herr
      split at herr
      · rename_i hc
        simpa using hc
      · exfalso
        split at herr
        · simp at herr
        · split at herr
          · split at herr
            · unfold createAsset at herr
              split at herr <;> simp at herr
            · simp at herr
          · unfold createAsset at herr
            split at herr <;> simp at herr
    · rintro ⟨h1, h2⟩
      unfold Airdrop
      rw [if_pos]
      simp [h1, h2]
  · intro herr
    rw [herr]
    rfl

/-- Concrete check of C7, the source's scenario 2: Alice airdrops into
Bob's non-airdroppable account and fails `AirdropNotAccepted`. -/
theorem airdrop_not_accepted_check :
    Airdrop stAlice15
      { asset_type := alcTkn, owner := "Bob", airdroppable := false,
        resharable := true } 5
      = Except.error LedgerError.AirdropNotAccepted :=
  (airdrop_not_accepted_iff stAlice15
    { asset_type := alcTkn, owner := "Bob", airdroppable := false,
      resharable := true } 5).1.2 ⟨by decide, by decide⟩

/-! ### List-level lemmas about archive-then-create asset updates -/

theorem pairwise_keys_not_both {l : List Asset}
    (h : l.Pairwise (fun a b => a.key ≠ b.key)) (k : AssetType × Party) :
    l.Pairwise
      (fun a b => ¬(assetKeyMatch k a = true ∧ assetKeyMatch k b = true)) := by
  refine h.imp ?_
  intro a b hne hab
  obtain ⟨h1, h2⟩ := hab
  rw [assetKeyMatch_eq_true] at h1 h2
  exact hne (h1.trans h2.symm)

theorem find?_eraseP_key_none {l : List Asset}
    (h : l.Pairwise (fun a b => a.key ≠ b.key)) (k : AssetType × Party) :
    (l.eraseP (assetKeyMatch k)).find? (assetKeyMatch k) = none := by
  apply List.find?_eq_none.2
  intro x hx
  have h2 := eraseP_no_two l (pairwise_keys_not_both h k) x hx
  simp [h2]

/-- After archive-at-`k` followed by a create at `k`, lookup at `k` finds
exactly the created asset (key uniqueness of the input list). -/
theorem find?_erase_append_self {l : List Asset}
    (h : l.Pairwise (fun a b => a.key ≠ b.key)) {k : AssetType × Party}
    {x : Asset} (hx : x.key = k) :
    (l.eraseP (assetKeyMatch k) ++ [x]).find? (assetKeyMatch k) = some x := by
  rw [List.find?_append, find?_eraseP_key_none h k, List.find?_singleton]
  rw [if_pos (assetKeyMatch_eq_true.2 hx)]
  rfl

/-- Archive-at-`k` followed by a create at `k` leaves lookup at any other
key unchanged. -/
theorem find?_erase_append_other {l : List Asset} {k k2 : AssetType × Party}
    (hk : k ≠ k2) {x : Asset} (hx : x.key = k) :
    (l.eraseP (assetKeyMatch k) ++ [x]).find? (assetKeyMatch k2)
      = l.find? (assetKeyMatch k2) := by
  rw [List.find?_append]
  rw [find?_eraseP_disjoint ?_ l]
  · rw [List.find?_singleton, if_neg, Option.or_none]
    rw [assetKeyMatch_eq_true, hx]
    exact hk
  · intro y hy
    rw [assetKeyMatch_eq_true] at hy
    rw [assetKeyMatch_eq_false, hy]
    exact hk

/-! ### Success-shape lemmas for the transfer choices -/

/-- When the owner's Asset is found, has at least the requested amount, and
the residual passes the `ensure` clause, `Create_Transfer` succeeds,
archiving the Asset and creating the residual and the transfer. -/
theorem create_transfer_ok {st : Ledger} {acc : AssetHoldingAccount}
    {amt : Decimal} {r : Party} {ast : Asset}
    (hlook : st.lookupAsset (acc.asset_type, acc.owner) = some ast)
    (hle : amt ≤ ast.amount)
    (hens : Asset.ensure { ast with amount := ast.amount - amt } = true) :
    Create_Transfer st acc amt r = Except.ok
      { st with
        assets :=
          st.assets.eraseP (assetKeyMatch (acc.asset_type, acc.owner))
            ++ [{ ast with amount := ast.amount - amt }],
        transfers :=
          st.transfers ++ [{ asset := ast, recipient := r, amount := amt }] } := by
  unfold Create_Transfer
  simp only [hlook]
  rw [if_pos (decide_eq_true hle)]
  rw [createAsset_ok_iff.2 ⟨hens, rfl⟩]
  rfl

/-- When the recipient holds a fungible Asset of the transferred type and
the merged amount passes the `ensure` clause, `Accept_Transfer` succeeds,
archiving the recipient's Asset and the transfer and creating the merged
position. -/
theorem accept_transfer_ok_some {st : Ledger} {tr : AssetTransfer}
    {prev : Asset}
    (hlook : st.lookupAsset (tr.asset.asset_type, tr.recipient) = some prev)
    (hfun : prev.asset_type.fungible = true)
    (hens : Asset.ensure
      { tr.asset with amount := tr.amount + prev.amount, owner := tr.recipient }
        = true) :
    Accept_Transfer st tr = Except.ok
      { st with
        assets :=
          st.assets.eraseP (assetKeyMatch (tr.asset.asset_type, tr.recipient))
            ++ [{ tr.asset with amount := tr.amount + prev.amount, owner := tr.recipient }],
        transfers := st.transfers.erase tr } := by
  unfold Accept_Transfer
  simp only [hlook, hfun, if_true]
  exact createAsset_ok_iff.2 ⟨hens, rfl⟩

/-- When the recipient holds no Asset of the transferred type and the
transferred amount passes the `ensure` clause, `Accept_Transfer` succeeds,
archiving the transfer and creating the recipient's position. -/
theorem accept_transfer_ok_none {st : Ledger} {tr : AssetTransfer}
    (hlook : st.lookupAsset (tr.asset.asset_type, tr.recipient) = none)
    (hens : Asset.ensure
      { tr.asset with amount := tr.amount + 0, owner := tr.recipient } = true) :
    Accept_Transfer st tr = Except.ok
      { st with
        assets :=
          st.assets ++ [{ tr.asset with amount := tr.amount + 0, owner := tr.recipient }],
        transfers := st.transfers.erase tr } := by
  unfold Accept_Transfer
  simp only [hlook]
  exact createAsset_ok_iff.2 ⟨hens, rfl⟩

theorem find?_append_of_some {α : Type} {p : α → Bool} {l1 l2 : List α}
    {x : α} (h : l1.find? p = some x) : (l1 ++ l2).find? p = some x := by
  rw [List.find?_append, h]
  rfl

theorem find?_append_singleton_of_none {α : Type} {p : α → Bool}
    {l : List α} {x : α} (h : l.find? p = none) (hx : p x = true) :
    (l ++ [x]).find? p = some x := by
  rw [List.find?_append, h, List.find?_singleton, if_pos hx]
  rfl

/-- When the owner's Asset is found with sufficient balance but the
residual Asset fails the `ensure` clause, the whole `Create_Transfer`
choice aborts with `EnsureFailed`. -/
theorem create_transfer_fails_of_ensure {st : Ledger}
    {acc : AssetHoldingAccount} {amt : Decimal} {r : Party} {ast : Asset}
    (hlook : st.lookupAsset (acc.asset_type, acc.owner) = some ast)
    (hle : amt ≤ ast.amount)
    (hens : Asset.ensure { ast with amount := ast.amount - amt } = false) :
    Create_Transfer st acc amt r = Except.error LedgerError.EnsureFailed := by
  unfold Create_Transfer
  simp only [hlook]
  rw [if_pos (decide_eq_true hle)]
  rw [createAsset_fails hens]

/-- Claim C3 is contradicted by the code: `Create_Transfer` of the full
balance of a fungible Asset does not succeed while omitting the residual
create — the residual create of amount 0 is attempted unconditionally,
fails the fungible `ensure` clause, and aborts the whole choice. -/
theorem create_transfer_full_balance_fails :
    Create_Transfer stAlice5 aliceAcc 5 "Bob"
      = Except.error LedgerError.EnsureFailed :=
  @create_transfer_fails_of_ensure stAlice5 aliceAcc 5 "Bob"
    { asset_type := alcTkn, owner := "Alice", amount := 5 } rfl
    (le_refl _) (by simp only [Asset.ensure]; norm_num [alcTkn])

/-- Claim C10 fails as stated on non-fungible assets: Dianne's single NFT
has amount 1, the amount −1 satisfies the precondition −1 ≤ 1, yet the
choice aborts, because the residual Asset of amount 2 violates the
non-fungible `ensure` clause. -/
theorem create_transfer_negative_nonfungible_fails :
    ((-1 : Decimal) ≤ 1) ∧
    Create_Transfer stDianneNft dianneNftAcc (-1) "Alice"
      = Except.error LedgerError.EnsureFailed :=
  ⟨by norm_num,
    @create_transfer_fails_of_ensure stDianneNft dianneNftAcc (-1) "Alice"
      { asset_type := nftTkn, owner := "Dianne", amount := 1 } rfl
      (by norm_num) (by simp only [Asset.ensure]; norm_num [nftTkn])⟩

/-- Claim C10 (amended): `Create_Transfer` places no lower bound on the
transfer amount: for an active fungible Asset of amount `b > 0` and any
`a < 0`, the precondition `a ≤ b` holds and the choice succeeds, creating a
residual Asset of amount `b − a` strictly greater than `b` and an
`AssetTransfer` carrying the negative amount.  (On non-fungible assets the
unconditional residual create can fail the `ensure` clause instead, as the
counterexample records.) -/
theorem create_transfer_negative_amount (st : Ledger)
    (acc : AssetHoldingAccount) (b a : Decimal) (r : Party)
    (hf : acc.asset_type.fungible = true) (hb : 0 < b) (ha : a < 0)
    (hlook : st.lookupAsset (acc.asset_type, acc.owner)
      = some { asset_type := acc.asset_type, owner := acc.owner, amount := b }) :
    a ≤ b ∧ b < b - a ∧
    Create_Transfer st acc a r = Except.ok
      { st with
        assets :=
          st.assets.eraseP (assetKeyMatch (acc.asset_type, acc.owner))
            ++ [{ asset_type := acc.asset_type, owner := acc.owner, amount := b - a }],
        transfers := st.transfers ++
          [{ asset := { asset_type := acc.asset_type, owner := acc.owner, amount := b },
             recipient := r, amount := a }] } := by
  have hab : a ≤ b := le_of_lt (ha.trans hb)
  have hens : Asset.ensure
      { asset_type := acc.asset_type, owner := acc.owner, amount := b - a } = true := by
    simp only [Asset.ensure, hf, if_true, decide_eq_true_eq]
    linarith
  exact ⟨hab, by linarith, create_transfer_ok hlook hab hens⟩

/-- Concrete check of the amended C10: Alice holds 15 fungible units and
transfers −3, leaving her residual at 18. -/
theorem create_transfer_negative_amount_check :
    ((-3 : Decimal) ≤ 15) ∧ ((15 : Decimal) < 15 - (-3)) ∧
    Create_Transfer stAlice15 aliceAcc (-3) "Bob" = Except.ok
      { stAlice15 with
        assets :=
          stAlice15.assets.eraseP (assetKeyMatch (alcTkn, "Alice"))
            ++ [{ asset_type := alcTkn, owner := "Alice", amount := 15 - (-3) }],
        transfers := stAlice15.transfers ++
          [{ asset := { asset_type := alcTkn, owner := "Alice", amount := 15 },
             recipient := "Bob", amount := -3 }] } :=
  create_transfer_negative_amount stAlice15 aliceAcc 15 (-3) "Bob" rfl
    (by decide) (by decide) (by decide)

/-- Claim C8: a successful fungible `Airdrop` of amount `a` into an account
whose key holds an active Asset of amount `p` (0 when none) archives that
Asset and creates a single new Asset at the same key with amount `a + p`:
in the successor state, lookup at the key finds the merged Asset, and it is
the only active Asset at the key. -/
theorem airdrop_fungible_merge (st : Ledger) (acc : AssetHoldingAccount)
    (a p : Decimal) (hu : st.KeyUnique)
    (hf : acc.asset_type.fungible = true)
    (hauth : acc.airdroppable = true ∨ acc.asset_type.issuer = acc.owner)
    (hprev : st.lookupAsset (acc.asset_type, acc.owner)
        = some { asset_type := acc.asset_type, owner := acc.owner, amount := p } ∨
      (st.lookupAsset (acc.asset_type, acc.owner) = none ∧ p = 0))
    (hpos : 0 < a + p) :
    Airdrop st acc a = Except.ok
      { st with assets :=
          st.assets.eraseP (assetKeyMatch (acc.asset_type, acc.owner))
            ++ [{ asset_type := acc.asset_type, owner := acc.owner, amount := a + p }] } ∧
    (st.assets.eraseP (assetKeyMatch (acc.asset_type, acc.owner))
        ++ [({ asset_type := acc.asset_type, owner := acc.owner, amount := a + p } : Asset)]).find?
          (assetKeyMatch (acc.asset_type, acc.owner))
      = some { asset_type := acc.asset_type, owner := acc.owner, amount := a + p } ∧
    (st.assets.eraseP (assetKeyMatch (acc.asset_type, acc.owner))
        ++ [({ asset_type := acc.asset_type, owner := acc.owner, amount := a + p } : Asset)]).filter
          (assetKeyMatch (acc.asset_type, acc.owner))
      = [{ asset_type := acc.asset_type, owner := acc.owner, amount := a + p }] := by
  have hens : Asset.ensure
      { asset_type := acc.asset_type, owner := acc.owner, amount := a + p } = true := by
    simp only [Asset.ensure, hf, if_true, decide_eq_true_eq]
    exact hpos
  refine ⟨?_, find?_erase_append_self hu rfl, ?_⟩
  · unfold Airdrop
    rw [if_neg (by rcases hauth with h | h <;> simp [h])]
    rw [if_neg (by simp [hf])]
    rcases hprev with heq | ⟨heq, hp0⟩
    · simp only [heq, hf, if_true]
      exact createAsset_ok_iff.2 ⟨hens, rfl⟩
    · subst hp0
      simp only [heq]
      have herase : st.assets.eraseP (assetKeyMatch (acc.asset_type, acc.owner))
          = st.assets :=
        List.eraseP_of_forall_not (List.find?_eq_none.1 heq)
      exact createAsset_ok_iff.2 ⟨hens, by rw [herase]⟩
  · have h1 : (st.assets.eraseP (assetKeyMatch (acc.asset_type, acc.owner))).filter
        (assetKeyMatch (acc.asset_type, acc.owner)) = [] :=
      List.filter_eq_nil_iff.2 (fun x hx => by
        simp [eraseP_no_two st.assets (pairwise_keys_not_both hu _) x hx])
    rw [List.filter_append, h1]
    have h2 : assetKeyMatch (acc.asset_type, acc.owner)
        { asset_type := acc.asset_type, owner := acc.owner, amount := a + p } = true :=
      assetKeyMatch_eq_true.2 rfl
    simp [h2]

/-- Concrete check of C8, the source's scenario 1: after airdropping 10,
airdropping 5 more leaves a single Asset of amount 15 (`5 + 10`). -/
theorem airdrop_fungible_merge_check :
    Airdrop
      { assets := [{ asset_type := alcTkn, owner := "Alice", amount := 10 }],
        transfers := [], accounts := [], proposals := [] } aliceAcc 5
      = Except.ok
        { assets :=
            [{ asset_type := alcTkn, owner := "Alice", amount := 10 }].eraseP
                (assetKeyMatch (alcTkn, "Alice"))
              ++ [{ asset_type := alcTkn, owner := "Alice", amount := (5 : Decimal) + 10 }],
          transfers := [], accounts := [], proposals := [] } ∧
    (([{ asset_type := alcTkn, owner := "Alice", amount := 10 }] : List Asset).eraseP
          (assetKeyMatch (alcTkn, "Alice"))
        ++ [({ asset_type := alcTkn, owner := "Alice", amount := (5 : Decimal) + 10 } : Asset)]).find?
          (assetKeyMatch (alcTkn, "Alice"))
      = some { asset_type := alcTkn, owner := "Alice", amount := (5 : Decimal) + 10 } ∧
    (([{ asset_type := alcTkn, owner := "Alice", amount := 10 }] : List Asset).eraseP
          (assetKeyMatch (alcTkn, "Alice"))
        ++ [({ asset_type := alcTkn, owner := "Alice", amount := (5 : Decimal) + 10 } : Asset)]).filter
          (assetKeyMatch (alcTkn, "Alice"))
      = [{ asset_type := alcTkn, owner := "Alice", amount := (5 : Decimal) + 10 }] :=
  airdrop_fungible_merge
    { assets := [{ asset_type := alcTkn, owner := "Alice", amount := 10 }],
      transfers := [], accounts := [], proposals := [] }
    aliceAcc 5 10 (List.pairwise_singleton _ _) rfl (Or.inr rfl)
    (Or.inl (by decide)) (by norm_num)

/-- Claim C2 fails as stated: the transfer amount 0 satisfies `a ≤ b`, and
`Create_Transfer` succeeds, but the recipient's `Accept_Transfer` aborts —
the Asset of amount 0 it would create for the empty-positioned recipient
violates the fungible `ensure` clause — so the composition does not leave
the balances the claim asserts. -/
theorem transfer_zero_amount_accept_fails :
    Create_Transfer stAlice15 aliceAcc 0 "Bob" = Except.ok stAfterZeroTransfer ∧
    Accept_Transfer stAfterZeroTransfer trZero
      = Except.error LedgerError.EnsureFailed := by
  constructor
  · exact @create_transfer_ok stAlice15 aliceAcc 0 "Bob"
      { asset_type := alcTkn, owner := "Alice", amount := 15 } rfl
      (by norm_num) (by simp only [Asset.ensure]; norm_num [alcTkn])
  · unfold Accept_Transfer
    have hlook : stAfterZeroTransfer.lookupAsset
        (trZero.asset.asset_type, trZero.recipient) = none := rfl
    simp only [hlook]
    exact createAsset_fails (by simp only [Asset.ensure]; norm_num [trZero, alcTkn])

/-- Claim C2 (amended): for a fungible asset type, a sender Asset of amount
`b`, a transfer amount `a` with `0 < a < b`, and any recipient whose
position is an existing (necessarily fungible) Asset of amount `p`, or
empty with `p = 0`, `Create_Transfer` followed by the recipient's
`Accept_Transfer` succeeds, leaves the sender's Asset at `b − a` and the
recipient's at `a + p`, and conserves the total across the two positions.
(The claim's full range `a ≤ b` fails at `a = b`, where the fungible
residual create aborts, and at `a ≤ 0`, as the counterexample records.) -/
theorem transfer_conservation (st : Ledger) (acc : AssetHoldingAccount)
    (b a p : Decimal) (B : Party)
    (hu : st.KeyUnique) (hf : acc.asset_type.fungible = true)
    (hAB : acc.owner ≠ B) (ha0 : 0 < a) (hab : a < b) (hp : 0 ≤ p)
    (hsender : st.lookupAsset (acc.asset_type, acc.owner)
      = some { asset_type := acc.asset_type, owner := acc.owner, amount := b })
    (hrecip : st.lookupAsset (acc.asset_type, B)
        = some { asset_type := acc.asset_type, owner := B, amount := p } ∨
      (st.lookupAsset (acc.asset_type, B) = none ∧ p = 0)) :
    Create_Transfer st acc a B = Except.ok
      { st with
        assets := st.assets.eraseP (assetKeyMatch (acc.asset_type, acc.owner))
          ++ [{ asset_type := acc.asset_type, owner := acc.owner, amount := b - a }],
        transfers := st.transfers ++
          [{ asset := { asset_type := acc.asset_type, owner := acc.owner, amount := b },
             recipient := B, amount := a }] } ∧
    Accept_Transfer
      { st with
        assets := st.assets.eraseP (assetKeyMatch (acc.asset_type, acc.owner))
          ++ [{ asset_type := acc.asset_type, owner := acc.owner, amount := b - a }],
        transfers := st.transfers ++
          [{ asset := { asset_type := acc.asset_type, owner := acc.owner, amount := b },
             recipient := B, amount := a }] }
      { asset := { asset_type := acc.asset_type, owner := acc.owner, amount := b },
        recipient := B, amount := a }
      = Except.ok
      { st with
        assets :=
          (st.assets.eraseP (assetKeyMatch (acc.asset_type, acc.owner))
            ++ [({ asset_type := acc.asset_type, owner := acc.owner, amount := b - a } : Asset)]).eraseP
              (assetKeyMatch (acc.asset_type, B))
            ++ [{ asset_type := acc.asset_type, owner := B, amount := a + p }],
        transfers :=
          (st.transfers ++
            [({ asset := { asset_type := acc.asset_type, owner := acc.owner, amount := b },
                recipient := B, amount := a } : AssetTransfer)]).erase
            { asset := { asset_type := acc.asset_type, owner := acc.owner, amount := b },
              recipient := B, amount := a } } ∧
    ((st.assets.eraseP (assetKeyMatch (acc.asset_type, acc.owner))
        ++ [({ asset_type := acc.asset_type, owner := acc.owner, amount := b - a } : Asset)]).eraseP
          (assetKeyMatch (acc.asset_type, B))
        ++ [({ asset_type := acc.asset_type, owner := B, amount := a + p } : Asset)]).find?
          (assetKeyMatch (acc.asset_type, acc.owner))
      = some { asset_type := acc.asset_type, owner := acc.owner, amount := b - a } ∧
    ((st.assets.eraseP (assetKeyMatch (acc.asset_type, acc.owner))
        ++ [({ asset_type := acc.asset_type, owner := acc.owner, amount := b - a } : Asset)]).eraseP
          (assetKeyMatch (acc.asset_type, B))
        ++ [({ asset_type := acc.asset_type, owner := B, amount := a + p } : Asset)]).find?
          (assetKeyMatch (acc.asset_type, B))
      = some { asset_type := acc.asset_type, owner := B, amount := a + p } ∧
    (b - a) + (a + p) = b + p := by
  have hkne : ((acc.asset_type, acc.owner) : AssetType × Party)
      ≠ (acc.asset_type, B) :=
    fun hk => hAB (congrArg Prod.snd hk)
  have hkBA : ((acc.asset_type, B) : AssetType × Party)
      ≠ (acc.asset_type, acc.owner) :=
    fun hk => hAB (congrArg Prod.snd hk).symm
  have hens1 : Asset.ensure
      { asset_type := acc.asset_type, owner := acc.owner, amount := b - a } = true := by
    simp only [Asset.ensure, hf, if_true, decide_eq_true_eq]
    linarith
  have hens2 : Asset.ensure
      { asset_type := acc.asset_type, owner := B, amount := a + p } = true := by
    simp only [Asset.ensure, hf, if_true, decide_eq_true_eq]
    linarith
  have hpair1 : ((st.assets.eraseP (assetKeyMatch (acc.asset_type, acc.owner))
      ++ [({ asset_type := acc.asset_type, owner := acc.owner, amount := b - a } : Asset)])).Pairwise
        (fun x y => x.key ≠ y.key) :=
    keyUnique_archive_append hu rfl
  refine ⟨?_, ?_, ?_, ?_, by ring⟩
  · exact @create_transfer_ok st acc a B
      { asset_type := acc.asset_type, owner := acc.owner, amount := b }
      hsender (le_of_lt hab) hens1
  · rcases hrecip with hr | ⟨hr, hp0⟩
    · have hlB1 : (st.assets.eraseP (assetKeyMatch (acc.asset_type, acc.owner))
          ++ [({ asset_type := acc.asset_type, owner := acc.owner, amount := b - a } : Asset)]).find?
            (assetKeyMatch (acc.asset_type, B))
          = some { asset_type := acc.asset_type, owner := B, amount := p } := by
        rw [find?_erase_append_other hkne (show
          ({ asset_type := acc.asset_type, owner := acc.owner, amount := b - a } : Asset).key
            = (acc.asset_type, acc.owner) from rfl)]
        exact hr
      exact @accept_transfer_ok_some
        { st with
          assets := st.assets.eraseP (assetKeyMatch (acc.asset_type, acc.owner))
            ++ [{ asset_type := acc.asset_type, owner := acc.owner, amount := b - a }],
          transfers := st.transfers ++
            [{ asset := { asset_type := acc.asset_type, owner := acc.owner, amount := b },
               recipient := B, amount := a }] }
        { asset := { asset_type := acc.asset_type, owner := acc.owner, amount := b },
          recipient := B, amount := a }
        { asset_type := acc.asset_type, owner := B, amount := p }
        hlB1 hf hens2
    · subst hp0
      have hlB1 : (st.assets.eraseP (assetKeyMatch (acc.asset_type, acc.owner))
          ++ [({ asset_type := acc.asset_type, owner := acc.owner, amount := b - a } : Asset)]).find?
            (assetKeyMatch (acc.asset_type, B))
          = none := by
        rw [find?_erase_append_other hkne (show
          ({ asset_type := acc.asset_type, owner := acc.owner, amount := b - a } : Asset).key
            = (acc.asset_type, acc.owner) from rfl)]
        exact hr
      have h2 := @accept_transfer_ok_none
        { st with
          assets := st.assets.eraseP (assetKeyMatch (acc.asset_type, acc.owner))
            ++ [{ asset_type := acc.asset_type, owner := acc.owner, amount := b - a }],
          transfers := st.transfers ++
            [{ asset := { asset_type := acc.asset_type, owner := acc.owner, amount := b },
               recipient := B, amount := a }] }
        { asset := { asset_type := acc.asset_type, owner := acc.owner, amount := b },
          recipient := B, amount := a }
        hlB1 hens2
      rw [h2, show (st.assets.eraseP (assetKeyMatch (acc.asset_type, acc.owner))
          ++ [({ asset_type := acc.asset_type, owner := acc.owner, amount := b - a } : Asset)]).eraseP
            (assetKeyMatch (acc.asset_type, B))
          = st.assets.eraseP (assetKeyMatch (acc.asset_type, acc.owner))
            ++ [({ asset_type := acc.asset_type, owner := acc.owner, amount := b - a } : Asset)]
        from List.eraseP_of_forall_not (List.find?_eq_none.1 hlB1)]
  · rw [find?_erase_append_other hkBA (show
      ({ asset_type := acc.asset_type, owner := B, amount := a + p } : Asset).key
        = (acc.asset_type, B) from rfl)]
    exact find?_erase_append_self hu rfl
  · exact find?_erase_append_self hpair1 rfl

/-- Concrete check of the amended C2, the source's scenario 3: Alice
transfers 5 of 15 to Bob, who accepts; Alice ends at 10 (`15 − 5`), Bob at
5 (`5 + 0`), and the total is conserved. -/
theorem transfer_conservation_check :
    Create_Transfer stAlice15 aliceAcc 5 "Bob" = Except.ok
      { assets := [{ asset_type := alcTkn, owner := "Alice", amount := 15 - 5 }],
        transfers := [{ asset := { asset_type := alcTkn, owner := "Alice", amount := 15 },
                        recipient := "Bob", amount := 5 }],
        accounts := [], proposals := [] } ∧
    Accept_Transfer
      { assets := [{ asset_type := alcTkn, owner := "Alice", amount := 15 - 5 }],
        transfers := [{ asset := { asset_type := alcTkn, owner := "Alice", amount := 15 },
                        recipient := "Bob", amount := 5 }],
        accounts := [], proposals := [] }
      { asset := { asset_type := alcTkn, owner := "Alice", amount := 15 },
        recipient := "Bob", amount := 5 }
      = Except.ok
      { assets := [{ asset_type := alcTkn, owner := "Alice", amount := 15 - 5 },
                   { asset_type := alcTkn, owner := "Bob", amount := (5 : Decimal) + 0 }],
        transfers := [], accounts := [], proposals := [] } ∧
    ([{ asset_type := alcTkn, owner := "Alice", amount := 15 - 5 },
      ({ asset_type := alcTkn, owner := "Bob", amount := (5 : Decimal) + 0 } : Asset)]).find?
        (assetKeyMatch (alcTkn, "Alice"))
      = some { asset_type := alcTkn, owner := "Alice", amount := 15 - 5 } ∧
    ([{ asset_type := alcTkn, owner := "Alice", amount := 15 - 5 },
      ({ asset_type := alcTkn, owner := "Bob", amount := (5 : Decimal) + 0 } : Asset)]).find?
        (assetKeyMatch (alcTkn, "Bob"))
      = some { asset_type := alcTkn, owner := "Bob", amount := (5 : Decimal) + 0 } ∧
    ((15 : Decimal) - 5) + (5 + 0) = 15 + 0 :=
  transfer_conservation stAlice15 aliceAcc 15 5 0 "Bob"
    (List.pairwise_singleton _ _) rfl (by decide) (by norm_num) (by norm_num)
    (by norm_num) rfl (Or.inr ⟨rfl, rfl⟩)

end Wallet
